import Mathlib

/-!
Shallow embedding of the loc-sal-tools pipeline (src/Constants/Globals,
src/Initialization/Setup): Roman-numeral conversion, the per-statute-type
HTML row formatters, the session-grouping HTML generator, the interactive
audit loop with its checkpoint store, and the orchestrator's decision logic.
Python exceptions are modelled with `Except`; terminal input is modelled as
a list of response strings; printed diagnostics are collected in lists.
-/

namespace LocSal

set_option maxRecDepth 100000

/-- Python exceptions that the embedded code can raise. -/
inductive PyErr
  | keyError (key : String)
  | attributeError
  | typeError
  | valueError
  deriving DecidableEq, Repr

deriving instance DecidableEq for Except

/-- A cell value of the loaded spreadsheet after pandas reads it: either a
value rendered by Python str(), or NaN (pandas missing value). -/
inductive Cell
  | str (s : String)
  | nan
  deriving DecidableEq, Repr

/-- Python str() on a cell value; str of NaN is "nan". -/
def Cell.pyStr : Cell → String
  | .str s => s
  | .nan => "nan"

/-- pandas pd.isna on a cell value. -/
def Cell.isna : Cell → Bool
  | .str _ => false
  | .nan => true

/-- One row of the DataFrame in generate_html.  A field equal to `none`
models a column that is absent from the frame, so that the Python item
access `row["..."]` raises KeyError. -/
structure Row where
  session : Option Cell
  type : Option Cell
  publicPrivate : Option Cell
  title : Option Cell
  date : Option Cell
  numberChapter : Option Cell
  pdfStart : Option Cell
  deriving DecidableEq, Repr

/-- Python `row[key]`: KeyError when the column is absent. -/
def getItem (v : Option Cell) (key : String) : Except PyErr Cell :=
  match v with
  | some c => .ok c
  | none => .error (.keyError key)

/-- The configuration values generate_html and generate_pdf_link read. -/
structure Config where
  congress : String
  congressStartDate : String
  congressEndDate : String
  publicPdfUrl : String
  privatePdfUrl : String

/-! ## Roman numerals (src/Constants/Globals, `arabic_to_roman`) -/

/-- The `numeral_map` dictionary of `arabic_to_roman`, in its insertion
order (Python dicts iterate in insertion order). -/
def numeral_map : List (Nat × String) :=
  [(1000, "M"), (900, "CM"), (500, "D"), (400, "CD"), (100, "C"),
   (90, "XC"), (50, "L"), (40, "XL"), (10, "X"), (9, "IX"),
   (5, "V"), (4, "IV"), (1, "I")]

/-- The inner `while num >= value` loop of `arabic_to_roman`: append the
symbol and subtract as long as `value ≤ num`.  `fuel` only bounds the
iteration count so the recursion is structural: every value in
`numeral_map` is at least 1, so the loop body runs at most `num` times and
calling it with `fuel = num` reproduces the Python loop exactly. -/
def romanWhile (fuel : Nat) (value : Nat) (sym : String) (num : Nat) (acc : String) :
    String × Nat :=
  match fuel with
  | 0 => (acc, num)
  | f + 1 =>
    if value ≤ num then romanWhile f value sym (num - value) (acc ++ sym)
    else (acc, num)

/-- `arabic_to_roman` from src/Constants/Globals: greedy subtractive
conversion, iterating over `numeral_map` (state = built string × remaining
number). -/
def arabic_to_roman (num : Nat) : String :=
  (numeral_map.foldl (fun p vs => romanWhile p.2 vs.1 vs.2 p.2 p.1) ("", num)).1

/-- Modelled from the spec: the symbol values of a standard Roman-numeral
parser (the parser itself is not part of the repository; the spec's
round-trip property refers to "a standard Roman-numeral parser"). -/
def charValue : Char → Int
  | 'I' => 1
  | 'V' => 5
  | 'X' => 10
  | 'L' => 50
  | 'C' => 100
  | 'D' => 500
  | 'M' => 1000
  | _ => 0

/-- Modelled from the spec: standard subtractive parsing — each symbol adds
its value, except a symbol written before a strictly larger one, which
subtracts. -/
def parseRomanAux : List Char → Int
  | [] => 0
  | [c] => charValue c
  | c₁ :: c₂ :: rest =>
    if charValue c₁ < charValue c₂ then parseRomanAux (c₂ :: rest) - charValue c₁
    else parseRomanAux (c₂ :: rest) + charValue c₁

/-- Standard Roman-numeral parser over a string. -/
def parseRoman (s : String) : Int := parseRomanAux s.data

/-! ## Row formatters (src/Constants/Globals) -/

/-- Python re.search of the one-or-more-digits pattern: the leftmost
maximal run of decimal digits, or none when the string has no digit. -/
def firstDigitRun : List Char → Option (List Char)
  | [] => none
  | c :: cs =>
    if c.isDigit then some (c :: cs.takeWhile Char.isDigit) else firstDigitRun cs

/-- re.search for digits over a string, returning the matched text. -/
def re_search_digits (s : String) : Option String :=
  (firstDigitRun s.data).map String.mk

/-- Python int() applied to a nonempty all-digit string. -/
def pyIntOfDigits (l : List Char) : Nat :=
  l.foldl (fun a c => a * 10 + (c.toNat - 48)) 0

/-- The whitespace characters Python str.strip() removes (the ASCII ones;
this data never holds exotic Unicode whitespace). -/
def pyIsSpace (c : Char) : Bool :=
  c = ' ' ∨ c = '\t' ∨ c = '\n' ∨ c = '\r' ∨ c = '\x0b' ∨ c = '\x0c'

/-- Python str.strip(): drop whitespace from both ends. -/
def pyStrip (l : List Char) : List Char :=
  ((l.dropWhile pyIsSpace).reverse.dropWhile pyIsSpace).reverse

/-- Python str.strip() on a string. -/
def pyStripStr (s : String) : String :=
  String.mk (pyStrip s.data)

/-- `html_for_law`: anchor-linked number/chapter cell, public/private cell,
title cell, date cell. -/
def html_for_law (pdf_link statute_type title date public_private number_chapter :
    String) : String :=
  "\n                    <tr>\n                        <td><a target=\"_blank\" href=\""
    ++ pdf_link ++ "\">" ++ number_chapter
    ++ "</a></td>\n                        <td>" ++ public_private
    ++ "</td>\n                        <td>" ++ title
    ++ "</td>\n                        <td>" ++ date
    ++ "</td>\n                    </tr>"

/-- `html_for_act_resolution_appendix`: extracts the first digit run of
number_chapter (when there is none, `digit_match.group()` raises
AttributeError on the None match object), converts it to a Roman numeral,
prefixes the title, and emits an anchor-linked type cell, the
public/private cell, the combined title cell and the date cell. -/
def html_for_act_resolution_appendix
    (pdf_link statute_type title date public_private number_chapter : String) :
    Except PyErr String :=
  match re_search_digits number_chapter with
  | none => .error .attributeError
  | some matched_digits =>
    let number := pyIntOfDigits matched_digits.data
    let title := arabic_to_roman number ++ ". " ++ title
    .ok ("\n                    <tr>\n                        <td><a target=\"_blank\" href=\""
      ++ pdf_link ++ "\">" ++ statute_type
      ++ "</a></td>\n                        <td>" ++ public_private
      ++ "</td>\n                        <td>" ++ title
      ++ "</td>\n                        <td>" ++ date
      ++ "</td>\n                    </tr>")

/-- `generic_html_generator`: anchor-linked type cell, empty cell, title
cell, date cell. -/
def generic_html_generator
    (pdf_link statute_type title date public_private number_chapter : String) :
    String :=
  "\n                    <tr>\n                        <td><a target=\"_blank\" href=\""
    ++ pdf_link ++ "\">" ++ statute_type
    ++ "</a></td>\n                        <td></td>\n                        <td>" ++ title
    ++ "</td>\n                        <td>" ++ date
    ++ "</td>\n                    </tr>"

/-- `html_for_articles_ordinance`: like the generic row but with a blank
date cell. -/
def html_for_articles_ordinance
    (pdf_link statute_type title date public_private number_chapter : String) :
    String :=
  "\n                    <tr>\n                        <td><a target=\"_blank\" href=\""
    ++ pdf_link ++ "\">" ++ statute_type
    ++ "</a></td>\n                        <td></td>\n                        <td>" ++ title
    ++ "</td>\n                        <td></td>\n                    </tr>"

/-- `html_for_special_pages`: a blank spacer row of four non-breaking-space
cells followed by an anchor-linked type row with title and no date. -/
def html_for_special_pages
    (pdf_link statute_type title date public_private number_chapter : String) :
    String :=
  "\n                    <tr>\n                        <td>&nbsp;</td>\n                        <td>&nbsp;</td>\n                        <td>&nbsp;</td>\n                        <td>&nbsp;</td>\n                    </tr>\n    \n                    <tr>\n                        <td><a target=\"_blank\" href=\""
    ++ pdf_link ++ "\">" ++ statute_type
    ++ "</a></td>\n                        <td></td>\n                        <td>" ++ title
    ++ "</td>\n                        <td></td>\n                    </tr>"

/-- `html_with_empty_cells`: the fallback formatter — anchor-linked type
cell carrying an "empty" type attribute plus three blank cells. -/
def html_with_empty_cells
    (pdf_link statute_type title date public_private number_chapter : String) :
    String :=
  "\n                    <tr>\n                        <td type=\"empty\"><a target=\"_blank\" href=\""
    ++ pdf_link ++ "\">" ++ statute_type
    ++ "</a></td>\n                        <td></td>\n                        <td></td>\n                        <td></td>\n                    </tr>"

/-! ## HTML generation (src/Initialization/Setup, `generate_html`) -/

/-- `generate_pdf_link`: the private URL template for private laws, the
public one otherwise, suffixed with the page anchor. -/
def generate_pdf_link (config : Config)
    (statute_type public_private pdf_start : String) : String :=
  if statute_type = "Law" ∧ public_private = "Private" then
    config.privatePdfUrl ++ "#page=" ++ pdf_start
  else
    config.publicPdfUrl ++ "#page=" ++ pdf_start

/-- A value bound in the module's global symbol table, as seen by
`globals().get(name, None)`: either one of the formatter functions, or a
non-function binding (e.g. the loaded `user_config` dictionary) with its
Python truthiness. -/
inductive GlobalVal
  | func (f : String → String → String → String → String → String →
      Except PyErr String)
  | nonfunc (truthy : Bool)

/-- `map_html_generators`: `html_generator_mappings.get(statute_type, None)`.
The mapping is loaded from an external YAML file, so it is a parameter of
the embedding. -/
def map_html_generators (gmap : String → Option String) (statute_type : String) :
    Option String :=
  gmap statute_type

/-- The module's global symbol table restricted to the names generate_html
can be pointed at: the six formatter functions (total ones wrapped in
`.ok`), plus `user_config`, the dictionary holding the loaded
user-config.yaml, which is a truthy non-function for any nonempty
configuration. -/
def module_globals : String → Option GlobalVal
  | "html_for_law" =>
    some (.func fun a b c d e f => .ok (html_for_law a b c d e f))
  | "html_for_act_resolution_appendix" =>
    some (.func html_for_act_resolution_appendix)
  | "generic_html_generator" =>
    some (.func fun a b c d e f => .ok (generic_html_generator a b c d e f))
  | "html_for_articles_ordinance" =>
    some (.func fun a b c d e f => .ok (html_for_articles_ordinance a b c d e f))
  | "html_for_special_pages" =>
    some (.func fun a b c d e f => .ok (html_for_special_pages a b c d e f))
  | "html_with_empty_cells" =>
    some (.func fun a b c d e f => .ok (html_with_empty_cells a b c d e f))
  | "user_config" => some (.nonfunc true)
  | _ => none

/-- The fixed header fragment generate_html emits first (congress values
substituted from configuration; note the source puts the start date in the
name attribute and the end date in the id attribute). -/
def gen_header (config : Config) : String :=
  "\n    <!-- Begin HTML-->\n    <a name=\"" ++ config.congressStartDate
    ++ "\" id=\"" ++ config.congressEndDate
    ++ "\"></a>\n    <h3 class=\"js-expandmore\" data-hideshow-prefix-class=\"light\">"
    ++ config.congress ++ " (" ++ config.congressStartDate ++ "-"
    ++ config.congressEndDate
    ++ ")</h3>\n    <div class=\"js-to_expand\">"

/-- The fragment that closes an open session table inside the loop. -/
def close_table_frag : String :=
  "\n                </tbody>\n            </table>"

/-- The fragment that opens a new session table with its h4 label. -/
def open_table_frag (session : String) : String :=
  "\n        <h4>" ++ session
    ++ "</h4>\n            <table class=\"table-bordered table-padded table-full-width\">\n                <tbody>"

/-- pandas pd.isna applied to a value that is already a Python str: always
False (the source stringifies the session before testing it, so this guard
in generate_html can never fire). -/
def pd_isna_str (s : String) : Bool := false

/-- The diagnostic printed when no generator is found for a statute type. -/
def no_generator_msg (statute_type : String) : String :=
  "No generator found for statute_type: " ++ statute_type

/-- `globals().get(generator_function_name, None)`: None when the mapping
missed (a None key is absent from globals) and otherwise the binding of
the mapped name, if any. -/
def resolve_generator (gmap : String → Option String)
    (genv : String → Option GlobalVal) (statute_type : String) :
    Option GlobalVal :=
  match map_html_generators gmap statute_type with
  | none => none
  | some n => genv n

/-- The dispatch tail of the generate_html loop body: look the statute type
up in the generator mapping, resolve the resulting name against the module
globals, call the resolved function — a truthy non-function binding is
called too and raises TypeError — or, when the lookup result is falsy,
print the diagnostic and fall back to html_with_empty_cells.  Returns the
emitted fragment together with the diagnostics printed. -/
def dispatch (gmap : String → Option String) (genv : String → Option GlobalVal)
    (pdf_link statute_type title date public_private number_chapter : String) :
    Except PyErr (String × List String) :=
  match resolve_generator gmap genv statute_type with
  | some (.func f) =>
    (f pdf_link statute_type title date public_private number_chapter).map
      fun h => (h, [])
  | some (.nonfunc true) => .error .typeError
  | some (.nonfunc false) =>
    .ok (html_with_empty_cells pdf_link statute_type title date public_private
      number_chapter, [no_generator_msg statute_type])
  | none =>
    .ok (html_with_empty_cells pdf_link statute_type title date public_private
      number_chapter, [no_generator_msg statute_type])

/-- The loop state of generate_html: the accumulated html, the
previous_session tracker, and the diagnostics printed so far. -/
structure GenState where
  html_content : String
  previous_session : String
  diagnostics : List String
  deriving DecidableEq, Repr

/-- The session-boundary logic of the generate_html loop body: when the
(stringified) session differs from previous_session, close the previous
table if one is open and open a new one if the new session is nonempty;
returns the updated html and previous_session.  The pd.isna guard is kept
even though it is always false on a stringified session. -/
def sessionStep (st : GenState) (session : String) : String × String :=
  if !pd_isna_str session && session != st.previous_session then
    let h :=
      if st.previous_session != "" then st.html_content ++ close_table_frag
      else st.html_content
    let h := if session != "" then h ++ open_table_frag session else h
    (h, session)
  else (st.html_content, st.previous_session)

/-- One iteration of the generate_html row loop, translated line by line
from the source.  The try/except around the first two extractions catches
only ValueError, which str() never raises; a missing column raises
KeyError, which that handler does not catch, so the handler is dead code
and item accesses simply propagate their KeyError here. -/
def processRow (config : Config) (gmap : String → Option String)
    (genv : String → Option GlobalVal) (st : GenState) (row : Row) :
    Except PyErr GenState := do
  let _ ← getItem row.session "Session"
  let _ ← getItem row.type "Type"
  let session := (← getItem row.session "Session").pyStr
  let statute_type := pyStripStr (← getItem row.type "Type").pyStr
  let public_private := (row.publicPrivate.getD (Cell.str "")).pyStr
  let titleCell ← getItem row.title "Title"
  let title := if titleCell.isna then "" else titleCell.pyStr
  let date := (← getItem row.date "Date").pyStr
  let number_chapter := (← getItem row.numberChapter "Number/Chapter").pyStr
  let pdf_start := (← getItem row.pdfStart "PDF Start").pyStr
  let (html1, prev1) := sessionStep st session
  let pdf_link := generate_pdf_link config statute_type public_private pdf_start
  let (html_segment, dgs) ←
    dispatch gmap genv pdf_link statute_type title date public_private
      number_chapter
  pure { html_content := html1 ++ html_segment, previous_session := prev1,
         diagnostics := st.diagnostics ++ dgs }

/-- The generate_html row loop over the remaining rows. -/
def genLoop (config : Config) (gmap : String → Option String)
    (genv : String → Option GlobalVal) : List Row → GenState →
    Except PyErr GenState
  | [], st => .ok st
  | row :: rest, st => do
    let st' ← processRow config gmap genv st row
    genLoop config gmap genv rest st'

/-- `generate_html` from src/Initialization/Setup: header fragment, the row
loop, and the final close of the last open table.  Returns the html
together with the printed diagnostics. -/
def generate_html (df : List Row) (config : Config)
    (gmap : String → Option String) (genv : String → Option GlobalVal) :
    Except PyErr (String × List String) :=
  (genLoop config gmap genv df
      { html_content := gen_header config, previous_session := "",
        diagnostics := [] }).map
    fun st =>
      (if st.previous_session != "" then st.html_content ++ "</tbody></table>"
       else st.html_content,
       st.diagnostics)

/-! ## Checkpoint store and Python int() (src/Initialization/Setup) -/

/-- Python int() on a string: strip whitespace, allow an optional sign
followed by decimal digits, raise ValueError otherwise (underscore
grouping and non-ASCII digits are not modelled). -/
def pyInt (s : String) : Except PyErr Int :=
  match pyStrip s.data with
  | [] => .error .valueError
  | '-' :: ds =>
    if ds ≠ [] ∧ ds.all Char.isDigit then .ok (-(pyIntOfDigits ds : Int))
    else .error .valueError
  | '+' :: ds =>
    if ds ≠ [] ∧ ds.all Char.isDigit then .ok ((pyIntOfDigits ds : Int))
    else .error .valueError
  | ds =>
    if ds.all Char.isDigit then .ok ((pyIntOfDigits ds : Int))
    else .error .valueError

/-- `get_last_audited_row`: `none` models a checkpoint file that does not
exist; otherwise read the content, strip it, and return int(content) when
the stripped content is nonempty, else 0. -/
def get_last_audited_row : Option String → Except PyErr Int
  | none => .ok 0
  | some content =>
    let c := pyStrip content.data
    if c = [] then .ok 0
    else pyInt (String.mk c)

/-- The base-10 digit list of n exactly as Nat.toDigitsCore builds it (the
function behind toString on Nat), written without the fuel argument; used
to reason about the checkpoint contents str(idx). -/
def natDigitsAux (n : Nat) (ds : List Char) : List Char :=
  if h : n / 10 = 0 then Nat.digitChar (n % 10) :: ds
  else natDigitsAux (n / 10) (Nat.digitChar (n % 10) :: ds)
termination_by n
decreasing_by
  have h1 : 0 < n := by
    rcases Nat.eq_zero_or_pos n with h0 | h0
    · subst h0
      simp at h
    · exact h0
  exact Nat.div_lt_self h1 (by omega)

/-! ## Audit loop (src/Initialization/Setup, `audit_process`) -/

/-- A pandas cell value as the audit loop sees it: an int (what a
correction writes), a string, or NaN. -/
inductive PyVal
  | intV (n : Int)
  | strV (s : String)
  | nanV
  deriving DecidableEq, Repr

/-- A row of the DataFrame during audit, with the fields the loop reads
(for its prompts) and the one field it mutates. -/
structure AuditRow where
  session : PyVal
  numberChapter : PyVal
  title : PyVal
  pdfStart : PyVal
  deriving DecidableEq, Repr

/-- `df.at[idx, "PDF Start"] = v`: replace the PDF Start cell of the row at
index idx, leaving every other row and field unchanged. -/
def setPdfStart : List AuditRow → Nat → Int → List AuditRow
  | [], _, _ => []
  | r :: rs, 0, v => { r with pdfStart := .intV v } :: rs
  | r :: rs, n + 1, v => r :: setPdfStart rs n v

/-- Python str.lower(), character by character (the ASCII case the audit
prompts compare against). -/
def pyLower (s : String) : String :=
  String.mk (s.data.map Char.toLower)

/-- Outcome of the inner while-loop of audit_process for one row. -/
inductive InnerResult
  | advance (df : List AuditRow) (inputs : List String)
  | abort
  | starved
  deriving Repr

/-- The inner `while True` loop of audit_process at row index idx: consume
one user input per iteration; "exit" (case-insensitive, at either prompt)
aborts, "y" confirms, "n" asks for a correction which mutates the row's
PDF Start when it parses as an int and re-prompts otherwise, and any other
input re-prompts.  An exhausted input script corresponds to the Python
process blocking on input(), the `starved` outcome. -/
def innerLoop (df : List AuditRow) (idx : Nat) : List String → InnerResult
  | [] => .starved
  | u :: rest =>
    if pyLower u = "exit" then .abort
    else if pyLower u = "y" then .advance df rest
    else if pyLower u = "n" then
      match rest with
      | [] => .starved
      | c :: rest2 =>
        if pyLower c = "exit" then .abort
        else
          match pyInt c with
          | .ok v => .advance (setPdfStart df idx v) rest2
          | .error _ => innerLoop df idx rest2
    else innerLoop df idx rest

/-- Result of audit_process: `complete` models returning True, `paused`
models returning False after writing str(idx) to the checkpoint file, and
`starved` models blocking on input() with the script exhausted.  Each
carries the final DataFrame and the trace of row indices whose
confirmation prompt was shown. -/
inductive AuditResult
  | complete (df : List AuditRow) (asked : List Nat)
  | paused (df : List AuditRow) (checkpointContent : String) (asked : List Nat)
  | starved (df : List AuditRow) (asked : List Nat)
  deriving DecidableEq, Repr

/-- The final DataFrame of an audit run. -/
def AuditResult.df : AuditResult → List AuditRow
  | .complete df _ => df
  | .paused df _ _ => df
  | .starved df _ => df

/-- The trace of asked row indices of an audit run. -/
def AuditResult.asked : AuditResult → List Nat
  | .complete _ a => a
  | .paused _ _ a => a
  | .starved _ a => a

/-- The outer `for idx, row in df.iterrows()` loop of audit_process over
the enumerated rows, threading the mutable DataFrame and remaining
inputs.  Rows with index below last_audited_row are skipped without any
prompt.  On abort the current index is written to the checkpoint file and
the function returns False (`paused` carries the written content). -/
def auditGo (last : Int) : List (Nat × AuditRow) → List String →
    List AuditRow → List Nat → AuditResult
  | [], _, df, asked => .complete df asked
  | (idx, _) :: rest, inputs, df, asked =>
    if (idx : Int) < last then auditGo last rest inputs df asked
    else
      match innerLoop df idx inputs with
      | .advance df' inputs' => auditGo last rest inputs' df' (asked ++ [idx])
      | .abort => .paused df (toString idx) (asked ++ [idx])
      | .starved => .starved df (asked ++ [idx])

/-- `audit_process` driven by a script of terminal inputs. -/
def audit_process (inputs : List String) (df : List AuditRow)
    (last_audited_row : Int) : AuditResult :=
  auditGo last_audited_row df.enum inputs df []

/-! ## Orchestrator (src/Initialization/Setup, `main`) -/

/-- An observable action of main(): a printed message, a process exit, or
one of the three file writes. -/
inductive MainAction
  | printMsg (msg : String)
  | exitProgram
  | writeAudited
  | writeInProcess
  | writeHtml
  deriving DecidableEq, Repr

/-- The decision logic of main(), abstracted over the three facts it
branches on: whether the audited file already exists, whether the HTML
output file already exists, and whether audit_process reports completion.
File writes and prints are recorded in program order (messages are given
without the interpolated paths). -/
def main_flow (auditedExists htmlExists auditCompletes : Bool) :
    List MainAction :=
  if auditedExists then
    if !htmlExists then
      [.printMsg "Audited file already exists.",
       .printMsg "No corresponding HTML found. Generating HTML...",
       .writeHtml,
       .printMsg "Generated HTML saved."]
    else
      [.printMsg "Audited file already exists.",
       .printMsg "HTML output already exists. If you wish to regenerate, please delete or backup the existing file.",
       .exitProgram]
  else
    if auditCompletes then
      [.writeAudited,
       .printMsg "Completed audit saved.",
       .writeHtml,
       .printMsg "Generated HTML saved."]
    else
      [.writeInProcess,
       .printMsg "In-process data saved.",
       .exitProgram]

/-! ## Concrete instances used by counterexamples and witnesses -/

/-- A concrete configuration. -/
def cfg0 : Config := ⟨"C", "S", "E", "PU", "PR"⟩

/-- A generator mapping with no entries (every statute type misses). -/
def gmap_none : String → Option String := fun _ => none

/-- A generator mapping sending the statute type "Act" to the
act/resolution/appendix formatter. -/
def gmap_act : String → Option String := fun t =>
  if t = "Act" then some "html_for_act_resolution_appendix" else none

/-- A generator mapping sending the statute type "Weird" to the name
`user_config`, which the module globals bind to the loaded configuration
dictionary — a truthy non-function. -/
def gmap_user_config : String → Option String := fun t =>
  if t = "Weird" then some "user_config" else none

/-- A row whose seven cells are all present strings. -/
def strRow (session ty pp ti d nc ps : String) : Row :=
  ⟨some (.str session), some (.str ty), some (.str pp), some (.str ti),
   some (.str d), some (.str nc), some (.str ps)⟩

/-- The act/resolution/appendix row as claim C2 words it, with an EMPTY
public/private cell.  Defined from the claim text only, for comparison
against the source formatter. -/
def act_row_per_claim (pdf_link statute_type title date : String) (n : Nat) :
    String :=
  "\n                    <tr>\n                        <td><a target=\"_blank\" href=\""
    ++ pdf_link ++ "\">" ++ statute_type
    ++ "</a></td>\n                        <td></td>\n                        <td>"
    ++ (arabic_to_roman n ++ ". " ++ title)
    ++ "</td>\n                        <td>" ++ date
    ++ "</td>\n                    </tr>"

/-- A concrete audit row used by witnesses. -/
def sample_audit_row : AuditRow :=
  ⟨.strV "1st", .strV "12", .strV "An act", .intV 5⟩

/-- A concrete two-row audit DataFrame used by witnesses. -/
def sample_audit_df : List AuditRow :=
  [sample_audit_row, ⟨.strV "1st", .strV "13", .strV "A resolution", .intV 9⟩]

set_option maxRecDepth 100000 in
theorem roman_chunk0 :
    ∀ n : Nat, n < 1000 → parseRoman (arabic_to_roman n) = (n : Int) := by decide

set_option maxRecDepth 100000 in
theorem roman_chunk1 :
    ∀ n : Nat, n < 1000 →
      parseRoman (arabic_to_roman (1000 + n)) = ((1000 + n : Nat) : Int) := by decide

set_option maxRecDepth 100000 in
theorem roman_chunk2 :
    ∀ n : Nat, n < 1000 →
      parseRoman (arabic_to_roman (2000 + n)) = ((2000 + n : Nat) : Int) := by decide

set_option maxRecDepth 100000 in
theorem roman_chunk3 :
    ∀ n : Nat, n < 1000 →
      parseRoman (arabic_to_roman (3000 + n)) = ((3000 + n : Nat) : Int) := by decide

/-- Round-trip for the whole range handled by classic Roman numerals. -/
theorem roman_roundtrip (n : Nat) (h : n < 4000) :
    parseRoman (arabic_to_roman n) = (n : Int) := by
  rcases Nat.lt_or_ge n 1000 with h1 | h1
  · exact roman_chunk0 n h1
  rcases Nat.lt_or_ge n 2000 with h2 | h2
  · have e : 1000 + (n - 1000) = n := by omega
    have := roman_chunk1 (n - 1000) (by omega)
    rw [e] at this
    exact this
  rcases Nat.lt_or_ge n 3000 with h3 | h3
  · have e : 2000 + (n - 2000) = n := by omega
    have := roman_chunk2 (n - 2000) (by omega)
    rw [e] at this
    exact this
  · have e : 3000 + (n - 3000) = n := by omega
    have := roman_chunk3 (n - 3000) (by omega)
    rw [e] at this
    exact this

/-- C1: for every integer n in [1, 3999], `arabic_to_roman n` (the classic
greedy subtractive algorithm over the table 1000/M … 1/I, embedded above
from the source) round-trips under a standard Roman-numeral parser; in
particular `arabic_to_roman 4 = "IV"`, `arabic_to_roman 1994 = "MCMXCIV"`
and `arabic_to_roman 2024 = "MMXXIV"`. -/
theorem arabic_to_roman_roundtrips (n : Nat) (h1 : 1 ≤ n) (h2 : n ≤ 3999) :
    parseRoman (arabic_to_roman n) = (n : Int) ∧
    arabic_to_roman 4 = "IV" ∧ arabic_to_roman 1994 = "MCMXCIV" ∧
    arabic_to_roman 2024 = "MMXXIV" :=
  ⟨roman_roundtrip n (by omega), rfl, rfl, rfl⟩

/-- Witness for C1 at n = 1994. -/
theorem arabic_to_roman_roundtrips_witness :
    1 ≤ 1994 ∧ 1994 ≤ 3999 ∧
      (parseRoman (arabic_to_roman 1994) = (1994 : Int) ∧
        arabic_to_roman 4 = "IV" ∧ arabic_to_roman 1994 = "MCMXCIV" ∧
        arabic_to_roman 2024 = "MMXXIV") :=
  ⟨by decide, by decide, arabic_to_roman_roundtrips 1994 (by decide) (by decide)⟩


/-! ## Digit lemmas for the checkpoint contents -/

theorem toDigitsCore_eq_natDigitsAux :
    ∀ (fuel n : Nat) (ds : List Char), n < fuel →
      Nat.toDigitsCore 10 fuel n ds = natDigitsAux n ds := by
  intro fuel
  induction fuel with
  | zero => intro n ds h; omega
  | succ f ih =>
    intro n ds h
    simp only [Nat.toDigitsCore]
    rw [natDigitsAux]
    by_cases h0 : n / 10 = 0
    · rw [if_pos h0, dif_pos h0]
    · rw [if_neg h0, dif_neg h0, ih (n / 10) _ (by omega)]

theorem digitChar_toNat (m : Nat) (h : m < 10) : (Nat.digitChar m).toNat = m + 48 := by
  interval_cases m <;> rfl

theorem digitChar_isDigit (m : Nat) (h : m < 10) : (Nat.digitChar m).isDigit = true := by
  interval_cases m <;> decide

theorem pyFold_eq (l : List Char) :
    ∀ acc : Nat, l.foldl (fun a c => a * 10 + (c.toNat - 48)) acc
      = acc * 10 ^ l.length + pyIntOfDigits l := by
  induction l with
  | nil => intro acc; simp [pyIntOfDigits]
  | cons c cs ih =>
    intro acc
    simp only [List.foldl, List.length_cons, pyIntOfDigits]
    rw [ih, ih (0 * 10 + (c.toNat - 48))]
    simp only [Nat.zero_mul, Nat.zero_add, pow_succ]
    ring

theorem pyIntOfDigits_cons (c : Char) (cs : List Char) :
    pyIntOfDigits (c :: cs) = (c.toNat - 48) * 10 ^ cs.length + pyIntOfDigits cs := by
  simp only [pyIntOfDigits, List.foldl]
  rw [pyFold_eq]
  simp only [Nat.zero_mul, Nat.zero_add]
  rfl

theorem pyIntOfDigits_natDigitsAux :
    ∀ (n : Nat) (ds : List Char),
      pyIntOfDigits (natDigitsAux n ds) = n * 10 ^ ds.length + pyIntOfDigits ds := by
  intro n
  induction n using Nat.strong_induction_on with
  | _ n ih =>
    intro ds
    rw [natDigitsAux]
    by_cases h0 : n / 10 = 0
    · rw [dif_pos h0]
      rw [pyIntOfDigits_cons, digitChar_toNat (n % 10) (by omega),
        Nat.add_sub_cancel, Nat.mod_eq_of_lt (by omega)]
    · rw [dif_neg h0]
      have hlt : n / 10 < n := Nat.div_lt_self (by omega) (by omega)
      rw [ih (n / 10) hlt, List.length_cons,
        pyIntOfDigits_cons, digitChar_toNat (n % 10) (by omega),
        Nat.add_sub_cancel, pow_succ]
      have hn : 10 * (n / 10) + n % 10 = n := Nat.div_add_mod n 10
      generalize hP : 10 ^ ds.length = P
      generalize hq : n / 10 = q at hn ⊢
      generalize hr : n % 10 = r at hn ⊢
      subst hn
      ring

theorem natDigitsAux_digits :
    ∀ (n : Nat) (ds : List Char), (∀ c ∈ ds, c.isDigit = true) →
      ∀ c ∈ natDigitsAux n ds, c.isDigit = true := by
  intro n
  induction n using Nat.strong_induction_on with
  | _ n ih =>
    intro ds hds c hc
    rw [natDigitsAux] at hc
    by_cases h0 : n / 10 = 0
    · rw [dif_pos h0] at hc
      rcases List.mem_cons.mp hc with rfl | hmem
      · exact digitChar_isDigit _ (by omega)
      · exact hds c hmem
    · rw [dif_neg h0] at hc
      refine ih (n / 10) (Nat.div_lt_self (by omega) (by omega)) _ ?_ c hc
      intro d hd
      rcases List.mem_cons.mp hd with rfl | hmem
      · exact digitChar_isDigit _ (by omega)
      · exact hds d hmem

theorem natDigitsAux_ne_nil : ∀ (n : Nat) (ds : List Char), natDigitsAux n ds ≠ [] := by
  intro n
  induction n using Nat.strong_induction_on with
  | _ n ih =>
    intro ds
    rw [natDigitsAux]
    by_cases h0 : n / 10 = 0
    · rw [dif_pos h0]; simp
    · rw [dif_neg h0]
      exact ih (n / 10) (Nat.div_lt_self (by omega) (by omega)) _

theorem natRepr_data (n : Nat) : (Nat.repr n).data = natDigitsAux n [] := by
  have h : (Nat.repr n).data = Nat.toDigitsCore 10 (n + 1) n [] := rfl
  rw [h, toDigitsCore_eq_natDigitsAux (n + 1) n [] (Nat.lt_succ_self n)]

theorem digit_not_space (c : Char) (h : c.isDigit = true) : pyIsSpace c = false := by
  simp only [pyIsSpace, decide_eq_false_iff_not]
  rintro (rfl | rfl | rfl | rfl | rfl | rfl) <;> exact absurd h (by decide)

theorem dropWhile_pyIsSpace_of_digits (l : List Char)
    (h : ∀ c ∈ l, c.isDigit = true) : l.dropWhile pyIsSpace = l := by
  cases l with
  | nil => rfl
  | cons c cs =>
    rw [List.dropWhile_cons, digit_not_space c (h c (List.mem_cons_self c cs))]
    simp

theorem pyStrip_of_digits (l : List Char) (h : ∀ c ∈ l, c.isDigit = true) :
    pyStrip l = l := by
  unfold pyStrip
  rw [dropWhile_pyIsSpace_of_digits l h,
    dropWhile_pyIsSpace_of_digits l.reverse
      (by intro c hc; exact h c (List.mem_reverse.mp hc)),
    List.reverse_reverse]

theorem pyInt_of_digits (l : List Char) (hne : l ≠ [])
    (h : ∀ c ∈ l, c.isDigit = true) :
    pyInt (String.mk l) = .ok ((pyIntOfDigits l : Nat) : Int) := by
  unfold pyInt
  have hdata : (String.mk l).data = l := rfl
  rw [hdata, pyStrip_of_digits l h]
  cases l with
  | nil => exact absurd rfl hne
  | cons c cs =>
    have hcd : c.isDigit = true := h c (List.mem_cons_self c cs)
    have hc1 : c ≠ '-' := by rintro rfl; exact absurd hcd (by decide)
    have hc2 : c ≠ '+' := by rintro rfl; exact absurd hcd (by decide)
    split
    · simp_all
    · rename_i ds heq
      rw [List.cons.injEq] at heq
      exact absurd heq.1 hc1
    · rename_i ds heq
      rw [List.cons.injEq] at heq
      exact absurd heq.1 hc2
    · rw [if_pos]
      rw [List.all_eq_true]
      intro d hd
      exact h d hd

theorem pyInt_natRepr (k : Nat) :
    pyInt (String.mk (natDigitsAux k [])) = .ok ((k : Nat) : Int) := by
  rw [pyInt_of_digits _ (natDigitsAux_ne_nil k []) (natDigitsAux_digits k [] (by simp))]
  rw [pyIntOfDigits_natDigitsAux k []]
  norm_num [pyIntOfDigits]

theorem get_last_audited_row_toString (k : Nat) :
    get_last_audited_row (some (toString k)) = .ok (k : Int) := by
  have h : (toString k).data = natDigitsAux k [] := natRepr_data k
  simp only [get_last_audited_row]
  rw [h, pyStrip_of_digits _ (natDigitsAux_digits k [] (by simp)),
    if_neg (natDigitsAux_ne_nil k [])]
  exact pyInt_natRepr k


/-! ## Audit loop lemmas -/

-- innerLoop step lemmas

theorem innerLoop_exit (df : List AuditRow) (idx : Nat) (rest : List String) :
    innerLoop df idx ("exit" :: rest) = .abort := by
  cases rest <;> (simp only [innerLoop]; rw [if_pos (by decide)])

theorem innerLoop_y (df : List AuditRow) (idx : Nat) (rest : List String) :
    innerLoop df idx ("y" :: rest) = .advance df rest := by
  cases rest <;> (simp only [innerLoop]; rw [if_neg (by decide), if_pos (by decide)])

theorem innerLoop_n_exit (df : List AuditRow) (idx : Nat) (rest : List String) :
    innerLoop df idx ("n" :: "exit" :: rest) = .abort := by
  simp only [innerLoop]
  rw [if_neg (by decide), if_neg (by decide), if_pos (by decide),
    if_pos (by decide)]

theorem innerLoop_n_val (df : List AuditRow) (idx : Nat) (v : String) (n : Int)
    (rest : List String) (h1 : pyLower v ≠ "exit") (h2 : pyInt v = .ok n) :
    innerLoop df idx ("n" :: v :: rest) = .advance (setPdfStart df idx n) rest := by
  simp only [innerLoop]
  rw [if_neg (by decide), if_neg (by decide), if_pos (by decide), if_neg h1, h2]

-- auditGo single-step lemmas

theorem auditGo_cons_skip (last : Int) (idx : Nat) (row : AuditRow)
    (rest : List (Nat × AuditRow)) (inputs : List String) (df : List AuditRow)
    (asked : List Nat) (h : (idx : Int) < last) :
    auditGo last ((idx, row) :: rest) inputs df asked
      = auditGo last rest inputs df asked := by
  simp only [auditGo]
  rw [if_pos h]

theorem auditGo_cons_y (last : Int) (idx : Nat) (row : AuditRow)
    (rest : List (Nat × AuditRow)) (inputs : List String) (df : List AuditRow)
    (asked : List Nat) (h : ¬((idx : Int) < last)) :
    auditGo last ((idx, row) :: rest) ("y" :: inputs) df asked
      = auditGo last rest inputs df (asked ++ [idx]) := by
  simp only [auditGo]
  rw [if_neg h, innerLoop_y]

theorem auditGo_cons_exit (last : Int) (idx : Nat) (row : AuditRow)
    (rest : List (Nat × AuditRow)) (inputs : List String) (df : List AuditRow)
    (asked : List Nat) (h : ¬((idx : Int) < last)) :
    auditGo last ((idx, row) :: rest) ("exit" :: inputs) df asked
      = .paused df (toString idx) (asked ++ [idx]) := by
  simp only [auditGo]
  rw [if_neg h, innerLoop_exit]

theorem auditGo_cons_n_exit (last : Int) (idx : Nat) (row : AuditRow)
    (rest : List (Nat × AuditRow)) (inputs : List String) (df : List AuditRow)
    (asked : List Nat) (h : ¬((idx : Int) < last)) :
    auditGo last ((idx, row) :: rest) ("n" :: "exit" :: inputs) df asked
      = .paused df (toString idx) (asked ++ [idx]) := by
  simp only [auditGo]
  rw [if_neg h, innerLoop_n_exit]

theorem auditGo_cons_n_val (last : Int) (idx : Nat) (row : AuditRow)
    (rest : List (Nat × AuditRow)) (inputs : List String) (df : List AuditRow)
    (asked : List Nat) (v : String) (n : Int) (h : ¬((idx : Int) < last))
    (h1 : pyLower v ≠ "exit") (h2 : pyInt v = .ok n) :
    auditGo last ((idx, row) :: rest) ("n" :: v :: inputs) df asked
      = auditGo last rest inputs (setPdfStart df idx n) (asked ++ [idx]) := by
  simp only [auditGo]
  rw [if_neg h, innerLoop_n_val df idx v n inputs h1 h2]

-- loop shape lemmas

theorem auditGo_confirm :
    ∀ (cnt : Nat) (l : List AuditRow) (i : Nat) (ins : List String)
      (df : List AuditRow) (asked : List Nat), cnt ≤ l.length →
      auditGo 0 (List.enumFrom i l) (List.replicate cnt "y" ++ ins) df asked
        = auditGo 0 (List.enumFrom (i + cnt) (l.drop cnt)) ins df
            (asked ++ List.range' i cnt) := by
  intro cnt
  induction cnt with
  | zero => intro l i ins df asked h; simp
  | succ m ih =>
    intro l i ins df asked h
    cases l with
    | nil => simp at h
    | cons a l' =>
      simp only [List.enumFrom, List.replicate, List.cons_append,
        List.drop_succ_cons]
      rw [auditGo_cons_y 0 i a _ _ df asked (by omega)]
      rw [ih l' (i + 1) ins df (asked ++ [i]) (by simpa using h)]
      have e1 : i + 1 + m = i + (m + 1) := by omega
      rw [e1, List.append_assoc, List.range'_succ]
      rfl

theorem auditGo_all_y :
    ∀ (l : List AuditRow) (i : Nat) (df : List AuditRow) (asked : List Nat),
      auditGo 0 (List.enumFrom i l) (List.replicate l.length "y") df asked
        = .complete df (asked ++ List.range' i l.length) := by
  intro l
  induction l with
  | nil => intro i df asked; simp [auditGo]
  | cons a l' ih =>
    intro i df asked
    simp only [List.enumFrom, List.length_cons, List.replicate]
    rw [auditGo_cons_y 0 i a _ _ df asked (by omega)]
    rw [ih (i + 1) df (asked ++ [i])]
    rw [List.append_assoc, List.range'_succ]
    rfl

theorem auditGo_skip :
    ∀ (n : Nat) (l : List AuditRow) (i : Nat) (last : Int) (ins : List String)
      (df : List AuditRow) (asked : List Nat),
      ((i : Int) + n ≤ last) → n ≤ l.length →
      auditGo last (List.enumFrom i l) ins df asked
        = auditGo last (List.enumFrom (i + n) (l.drop n)) ins df asked := by
  intro n
  induction n with
  | zero => intro l i last ins df asked h1 h2; simp
  | succ m ih =>
    intro l i last ins df asked h1 h2
    cases l with
    | nil => simp at h2
    | cons a l' =>
      simp only [List.enumFrom, List.drop_succ_cons]
      rw [auditGo_cons_skip last i a _ ins df asked (by omega)]
      rw [ih l' (i + 1) last ins df asked (by omega) (by simpa using h2)]
      have e1 : i + 1 + m = i + (m + 1) := by omega
      rw [e1]

theorem auditGo_asked_extend :
    ∀ (pairs : List (Nat × AuditRow)) (ins : List String) (df : List AuditRow)
      (asked : List Nat) (last : Int),
      ∃ t, (auditGo last pairs ins df asked).asked = asked ++ t ∧
        ∀ j ∈ t, ∃ p ∈ pairs, p.1 = j ∧ ¬((p.1 : Int) < last) := by
  intro pairs
  induction pairs with
  | nil =>
    intro ins df asked last
    exact ⟨[], by simp [auditGo, AuditResult.asked], by simp⟩
  | cons hd rest ih =>
    intro ins df asked last
    rcases hd with ⟨idx, row⟩
    by_cases hskip : (idx : Int) < last
    · rw [auditGo_cons_skip last idx row rest ins df asked hskip]
      obtain ⟨t, ht1, ht2⟩ := ih ins df asked last
      refine ⟨t, ht1, fun j hj => ?_⟩
      obtain ⟨p, hp, he, hge⟩ := ht2 j hj
      exact ⟨p, List.mem_cons_of_mem _ hp, he, hge⟩
    · have hstep : auditGo last ((idx, row) :: rest) ins df asked
          = match innerLoop df idx ins with
            | .advance df2 ins2 => auditGo last rest ins2 df2 (asked ++ [idx])
            | .abort => .paused df (toString idx) (asked ++ [idx])
            | .starved => .starved df (asked ++ [idx]) := by
        simp only [auditGo]
        rw [if_neg hskip]
      cases hinner : innerLoop df idx ins with
      | advance df2 ins2 =>
        rw [hstep, hinner]
        obtain ⟨t, ht1, ht2⟩ := ih ins2 df2 (asked ++ [idx]) last
        refine ⟨idx :: t, ?_, fun j hj => ?_⟩
        · rw [ht1, List.append_assoc]
          rfl
        · rcases List.mem_cons.mp hj with heq | hmem
          · exact ⟨(idx, row), List.mem_cons_self _ _, heq.symm, hskip⟩
          · obtain ⟨p, hp, he, hge⟩ := ht2 j hmem
            exact ⟨p, List.mem_cons_of_mem _ hp, he, hge⟩
      | abort =>
        rw [hstep, hinner]
        refine ⟨[idx], by simp [AuditResult.asked], fun j hj => ?_⟩
        have heq := List.mem_singleton.mp hj
        exact ⟨(idx, row), List.mem_cons_self _ _, heq.symm, hskip⟩
      | starved =>
        rw [hstep, hinner]
        refine ⟨[idx], by simp [AuditResult.asked], fun j hj => ?_⟩
        have heq := List.mem_singleton.mp hj
        exact ⟨(idx, row), List.mem_cons_self _ _, heq.symm, hskip⟩

theorem setPdfStart_length :
    ∀ (df : List AuditRow) (i : Nat) (n : Int),
      (setPdfStart df i n).length = df.length := by
  intro df
  induction df with
  | nil => intro i n; rfl
  | cons r rs ih =>
    intro i n
    cases i with
    | zero => rfl
    | succ m => simp [setPdfStart, ih]

theorem setPdfStart_get_ne :
    ∀ (df : List AuditRow) (i j : Nat) (n : Int), j ≠ i →
      (setPdfStart df i n)[j]? = df[j]? := by
  intro df
  induction df with
  | nil => intro i j n h; rfl
  | cons r rs ih =>
    intro i j n h
    cases i with
    | zero =>
      cases j with
      | zero => exact absurd rfl h
      | succ jm => simp [setPdfStart]
    | succ im =>
      cases j with
      | zero => simp [setPdfStart]
      | succ jm =>
        simp only [setPdfStart, List.getElem?_cons_succ]
        exact ih im jm n (by omega)

theorem setPdfStart_get_eq :
    ∀ (df : List AuditRow) (i : Nat) (n : Int),
      (setPdfStart df i n)[i]?
        = df[i]?.map fun r => { r with pdfStart := .intV n } := by
  intro df
  induction df with
  | nil => intro i n; rfl
  | cons r rs ih =>
    intro i n
    cases i with
    | zero => simp [setPdfStart]
    | succ im =>
      simp only [setPdfStart, List.getElem?_cons_succ]
      exact ih im n

theorem auditGo_cons_asked (last : Int) (idx : Nat) (row : AuditRow)
    (rest : List (Nat × AuditRow)) (ins : List String) (df : List AuditRow)
    (asked : List Nat) (h : ¬((idx : Int) < last)) :
    ∃ t, (auditGo last ((idx, row) :: rest) ins df asked).asked
        = asked ++ idx :: t ∧
      ∀ j ∈ t, ∃ p ∈ rest, p.1 = j ∧ ¬((p.1 : Int) < last) := by
  have hstep : auditGo last ((idx, row) :: rest) ins df asked
      = match innerLoop df idx ins with
        | .advance df2 ins2 => auditGo last rest ins2 df2 (asked ++ [idx])
        | .abort => .paused df (toString idx) (asked ++ [idx])
        | .starved => .starved df (asked ++ [idx]) := by
    simp only [auditGo]
    rw [if_neg h]
  cases hinner : innerLoop df idx ins with
  | advance df2 ins2 =>
    rw [hstep, hinner]
    obtain ⟨t, ht1, ht2⟩ := auditGo_asked_extend rest ins2 df2 (asked ++ [idx]) last
    refine ⟨t, ?_, ht2⟩
    rw [ht1, List.append_assoc]
    rfl
  | abort =>
    rw [hstep, hinner]
    exact ⟨[], by simp [AuditResult.asked], by simp⟩
  | starved =>
    rw [hstep, hinner]
    exact ⟨[], by simp [AuditResult.asked], by simp⟩

/-- Claim C7: aborting the audit at row index k (abort keyword at either
the confirmation or the correction prompt, after confirming rows 0..k-1)
writes exactly str(k) to the checkpoint store and returns incomplete;
reading that checkpoint back yields k, and a run resuming with checkpoint
k shows its first prompt for row k (not k+1) and never prompts for any row
with index below k. -/
theorem audit_checkpoint_roundtrip (df : List AuditRow) (k : Nat)
    (ins : List String) (h : k < df.length) :
    audit_process (List.replicate k "y" ++ ["exit"]) df 0
      = .paused df (toString k) (List.range (k + 1)) ∧
    audit_process (List.replicate k "y" ++ ["n", "exit"]) df 0
      = .paused df (toString k) (List.range (k + 1)) ∧
    get_last_audited_row (some (toString k)) = .ok (k : Int) ∧
    (audit_process ins df (k : Int)).asked.head? = some k ∧
    ∀ i ∈ (audit_process ins df (k : Int)).asked, k ≤ i := by
  have hdrop : df.drop k = df[k] :: df.drop (k + 1) := List.drop_eq_getElem_cons h
  have hrange : List.range' 0 k ++ [k] = List.range (k + 1) := by
    rw [List.range_succ, List.range_eq_range']
  refine ⟨?_, ?_, get_last_audited_row_toString k, ?_⟩
  · unfold audit_process
    rw [List.enum_eq_enumFrom, auditGo_confirm k df 0 ["exit"] df [] (le_of_lt h)]
    simp only [Nat.zero_add, List.nil_append]
    rw [hdrop]
    simp only [List.enumFrom]
    rw [auditGo_cons_exit 0 k _ _ _ df _ (by omega), hrange]
  · unfold audit_process
    rw [List.enum_eq_enumFrom,
      auditGo_confirm k df 0 ["n", "exit"] df [] (le_of_lt h)]
    simp only [Nat.zero_add, List.nil_append]
    rw [hdrop]
    simp only [List.enumFrom]
    rw [auditGo_cons_n_exit 0 k _ _ _ df _ (by omega), hrange]
  · unfold audit_process
    rw [List.enum_eq_enumFrom,
      auditGo_skip k df 0 (k : Int) ins df [] (by omega) (le_of_lt h)]
    simp only [Nat.zero_add]
    rw [hdrop]
    simp only [List.enumFrom]
    obtain ⟨t, ht1, ht2⟩ :=
      auditGo_cons_asked (k : Int) k (df[k]) _ ins df [] (by omega)
    constructor
    · rw [ht1]
      simp
    · intro i hi
      rw [ht1] at hi
      simp only [List.nil_append, List.mem_cons] at hi
      rcases hi with rfl | hmem
      · exact le_refl i
      · obtain ⟨p, hp, he, hge⟩ := ht2 i hmem
        omega

/-- Claim C8: rejecting row i and then supplying a valid integer
correction (which, being a valid integer literal, cannot read as the abort
keyword) completes the run with only row i changed: its PDF Start becomes
that integer, every other field of row i and every other row is unchanged
(rows before and after i are confirmed with "y"). -/
theorem audit_correction_frame (df : List AuditRow) (i : Nat) (v : String)
    (n : Int) (h1 : i < df.length) (h2 : pyInt v = .ok n)
    (h3 : pyLower v ≠ "exit") :
    audit_process
        (List.replicate i "y" ++ "n" :: v ::
          List.replicate (df.length - i - 1) "y") df 0
      = .complete (setPdfStart df i n) (List.range df.length) ∧
    (setPdfStart df i n).length = df.length ∧
    (∀ j, j ≠ i → (setPdfStart df i n)[j]? = df[j]?) ∧
    (setPdfStart df i n)[i]?
      = df[i]?.map fun r => { r with pdfStart := .intV n } := by
  refine ⟨?_, setPdfStart_length df i n,
    fun j hj => setPdfStart_get_ne df i j n hj, setPdfStart_get_eq df i n⟩
  unfold audit_process
  have hsplit : List.replicate i "y" ++ "n" :: v ::
      List.replicate (df.length - i - 1) "y"
      = List.replicate i "y" ++ ("n" :: v ::
        List.replicate (df.length - i - 1) "y") := rfl
  rw [List.enum_eq_enumFrom, hsplit,
    auditGo_confirm i df 0 _ df [] (le_of_lt h1)]
  simp only [Nat.zero_add, List.nil_append]
  rw [List.drop_eq_getElem_cons h1]
  simp only [List.enumFrom]
  rw [auditGo_cons_n_val 0 i _ _ _ df _ v n (by omega) h3 h2]
  have hlen : df.length - i - 1 = (df.drop (i + 1)).length := by
    rw [List.length_drop]
    omega
  rw [hlen, auditGo_all_y (df.drop (i + 1)) (i + 1) (setPdfStart df i n) _]
  congr 1
  rw [List.length_drop]
  have e1 : List.range' 0 i ++ [i] = List.range' 0 (i + 1) := by
    rw [List.range'_concat]
    simp
  rw [e1]
  have e2 := List.range'_append_1 0 (i + 1) (df.length - (i + 1))
  simp only [Nat.zero_add] at e2
  rw [e2]
  have e3 : df.length - (i + 1) + (i + 1) = df.length := by omega
  rw [e3, List.range_eq_range']



/-! ## HTML generation lemmas -/

theorem processRow_ok (config : Config) (gmap : String → Option String)
    (genv : String → Option GlobalVal) (st : GenState) (sc : Cell)
    (t pp ti d nc ps : String) (seg : String) (dgs : List String)
    (hdisp : dispatch gmap genv
      (generate_pdf_link config (pyStripStr t) pp ps) (pyStripStr t)
      ti d pp nc = .ok (seg, dgs)) :
    processRow config gmap genv st ⟨some sc, some (.str t), some (.str pp),
      some (.str ti), some (.str d), some (.str nc), some (.str ps)⟩
      = .ok ⟨(sessionStep st sc.pyStr).1 ++ seg, (sessionStep st sc.pyStr).2,
          st.diagnostics ++ dgs⟩ := by
  simp only [processRow, getItem, Cell.pyStr, Cell.isna, Option.getD,
    bind, Except.bind, Bool.false_eq_true, if_false, hdisp, pure, Except.pure]

theorem sessionStep_same (st : GenState) :
    sessionStep st st.previous_session = (st.html_content, st.previous_session) := by
  simp [sessionStep]

theorem sessionStep_empty (st : GenState) (hprev : st.previous_session ≠ "") :
    sessionStep st "" = (st.html_content ++ close_table_frag, "") := by
  simp [sessionStep, pd_isna_str, bne_iff_ne, hprev, Ne.symm hprev]

theorem sessionStep_change (st : GenState) (s : String)
    (hne : s ≠ st.previous_session) (hs : s ≠ "")
    (hprev : st.previous_session ≠ "") :
    sessionStep st s = (st.html_content ++ close_table_frag
      ++ open_table_frag s, s) := by
  simp [sessionStep, pd_isna_str, bne_iff_ne, hne, hs, hprev]

theorem sessionStep_fresh (st : GenState) (s : String)
    (hne : s ≠ st.previous_session) (hs : s ≠ "")
    (hprev : st.previous_session = "") :
    sessionStep st s = (st.html_content ++ open_table_frag s, s) := by
  simp [sessionStep, pd_isna_str, bne_iff_ne, hne, hs, hprev]

theorem genLoop_cons (config : Config) (gmap : String → Option String)
    (genv : String → Option GlobalVal) (row : Row) (rest : List Row)
    (st st2 : GenState) (h : processRow config gmap genv st row = .ok st2) :
    genLoop config gmap genv (row :: rest) st
      = genLoop config gmap genv rest st2 := by
  simp only [genLoop, bind, Except.bind, h]

theorem processRow_ok_fresh (config : Config) (gmap : String → Option String)
    (genv : String → Option GlobalVal) (html : String) (dg : List String)
    (s t pp ti d nc ps seg : String) (dgs : List String) (hs : s ≠ "")
    (hdisp : dispatch gmap genv
      (generate_pdf_link config (pyStripStr t) pp ps) (pyStripStr t)
      ti d pp nc = .ok (seg, dgs)) :
    processRow config gmap genv ⟨html, "", dg⟩ (strRow s t pp ti d nc ps)
      = .ok ⟨html ++ open_table_frag s ++ seg, s, dg ++ dgs⟩ := by
  rw [strRow, processRow_ok config gmap genv _ _ t pp ti d nc ps seg dgs hdisp]
  rw [show (Cell.str s).pyStr = s from rfl]
  rw [sessionStep_fresh ⟨html, "", dg⟩ s hs hs rfl]

theorem processRow_ok_same (config : Config) (gmap : String → Option String)
    (genv : String → Option GlobalVal) (html : String) (dg : List String)
    (s t pp ti d nc ps seg : String) (dgs : List String)
    (hdisp : dispatch gmap genv
      (generate_pdf_link config (pyStripStr t) pp ps) (pyStripStr t)
      ti d pp nc = .ok (seg, dgs)) :
    processRow config gmap genv ⟨html, s, dg⟩ (strRow s t pp ti d nc ps)
      = .ok ⟨html ++ seg, s, dg ++ dgs⟩ := by
  rw [strRow, processRow_ok config gmap genv _ _ t pp ti d nc ps seg dgs hdisp]
  rw [show (Cell.str s).pyStr = s from rfl]
  rw [show s = GenState.previous_session ⟨html, s, dg⟩ from rfl, sessionStep_same]

theorem processRow_ok_switch (config : Config) (gmap : String → Option String)
    (genv : String → Option GlobalVal) (html : String) (dg : List String)
    (p s t pp ti d nc ps seg : String) (dgs : List String)
    (hne : s ≠ p) (hs : s ≠ "") (hp : p ≠ "")
    (hdisp : dispatch gmap genv
      (generate_pdf_link config (pyStripStr t) pp ps) (pyStripStr t)
      ti d pp nc = .ok (seg, dgs)) :
    processRow config gmap genv ⟨html, p, dg⟩ (strRow s t pp ti d nc ps)
      = .ok ⟨html ++ close_table_frag ++ open_table_frag s ++ seg, s,
          dg ++ dgs⟩ := by
  rw [strRow, processRow_ok config gmap genv _ _ t pp ti d nc ps seg dgs hdisp]
  rw [show (Cell.str s).pyStr = s from rfl]
  rw [sessionStep_change ⟨html, p, dg⟩ s hne hs hp]

/-- Claim C5 (amended): for rows with sessions A,A,B,B,B (A, B nonempty
and distinct) and any other field values FOR WHICH EVERY FORMATTER
CALL SUCCEEDS, generate_html emits exactly two tables, the first holding
the two A rows and the second the three B rows, in input order: the output
is the header, the A table open, rows 0 and 1, the table close, the B
table open, rows 2, 3, 4, and the final close. -/
theorem session_grouping (config : Config) (gmap : String → Option String)
    (genv : String → Option GlobalVal) (A B : String)
    (t pp ti d nc ps seg : Fin 5 → String) (dgs : Fin 5 → List String)
    (hA : A ≠ "") (hB : B ≠ "") (hAB : B ≠ A)
    (hdisp : ∀ i : Fin 5, dispatch gmap genv
      (generate_pdf_link config (pyStripStr (t i)) (pp i) (ps i))
      (pyStripStr (t i)) (ti i) (d i) (pp i) (nc i) = .ok (seg i, dgs i)) :
    generate_html
      [strRow A (t 0) (pp 0) (ti 0) (d 0) (nc 0) (ps 0),
       strRow A (t 1) (pp 1) (ti 1) (d 1) (nc 1) (ps 1),
       strRow B (t 2) (pp 2) (ti 2) (d 2) (nc 2) (ps 2),
       strRow B (t 3) (pp 3) (ti 3) (d 3) (nc 3) (ps 3),
       strRow B (t 4) (pp 4) (ti 4) (d 4) (nc 4) (ps 4)] config gmap genv
      = .ok (gen_header config ++ open_table_frag A ++ seg 0 ++ seg 1
          ++ close_table_frag ++ open_table_frag B ++ seg 2 ++ seg 3 ++ seg 4
          ++ "</tbody></table>",
          dgs 0 ++ dgs 1 ++ dgs 2 ++ dgs 3 ++ dgs 4) := by
  simp only [generate_html]
  rw [genLoop_cons _ _ _ _ _ _ _
      (processRow_ok_fresh config gmap genv _ _ A _ _ _ _ _ _ _ _ hA (hdisp 0)),
    genLoop_cons _ _ _ _ _ _ _
      (processRow_ok_same config gmap genv _ _ A _ _ _ _ _ _ _ _ (hdisp 1)),
    genLoop_cons _ _ _ _ _ _ _
      (processRow_ok_switch config gmap genv _ _ A B _ _ _ _ _ _ _ _
        hAB hB hA (hdisp 2)),
    genLoop_cons _ _ _ _ _ _ _
      (processRow_ok_same config gmap genv _ _ B _ _ _ _ _ _ _ _ (hdisp 3)),
    genLoop_cons _ _ _ _ _ _ _
      (processRow_ok_same config gmap genv _ _ B _ _ _ _ _ _ _ _ (hdisp 4))]
  simp only [genLoop, Except.map, bne_iff_ne, List.nil_append]
  rw [if_pos hB]

/-- Claim C3 (amended): a row whose session is the empty string and
differs from previousSession CLOSES the open table (opening none), resets
previousSession to empty, and its formatted output lands after the close,
outside any table; a row with a missing (NaN) session stringifies to
"nan", closes the open table and OPENS a new table labelled nan, setting
previousSession to "nan".  (The claim said such rows neither open nor
close tables and leave previousSession unchanged.) -/
theorem blank_session_behavior (config : Config) (gmap : String → Option String)
    (genv : String → Option GlobalVal) (html p : String) (dg : List String)
    (t pp ti d nc ps seg : String) (dgs : List String)
    (hp : p ≠ "") (hpnan : p ≠ "nan")
    (hdisp : dispatch gmap genv
      (generate_pdf_link config (pyStripStr t) pp ps) (pyStripStr t)
      ti d pp nc = .ok (seg, dgs)) :
    processRow config gmap genv ⟨html, p, dg⟩ (strRow "" t pp ti d nc ps)
      = .ok ⟨html ++ close_table_frag ++ seg, "", dg ++ dgs⟩ ∧
    processRow config gmap genv ⟨html, p, dg⟩
        ⟨some Cell.nan, some (.str t), some (.str pp), some (.str ti),
         some (.str d), some (.str nc), some (.str ps)⟩
      = .ok ⟨html ++ close_table_frag ++ open_table_frag "nan" ++ seg, "nan",
          dg ++ dgs⟩ := by
  constructor
  · rw [strRow, processRow_ok config gmap genv _ _ t pp ti d nc ps seg dgs hdisp,
      show (Cell.str "").pyStr = "" from rfl, sessionStep_empty ⟨html, p, dg⟩ hp]
  · rw [processRow_ok config gmap genv _ Cell.nan t pp ti d nc ps seg dgs hdisp,
      show Cell.nan.pyStr = "nan" from rfl,
      sessionStep_change ⟨html, p, dg⟩ "nan" (fun he => hpnan he.symm)
        (by decide) hp]

theorem dispatch_fallback (gmap : String → Option String)
    (genv : String → Option GlobalVal) (pl ty ti d pp nc : String)
    (hmiss : resolve_generator gmap genv ty = none
      ∨ resolve_generator gmap genv ty = some (.nonfunc false)) :
    dispatch gmap genv pl ty ti d pp nc
      = .ok (html_with_empty_cells pl ty ti d pp nc, [no_generator_msg ty]) := by
  unfold dispatch
  rcases hmiss with h | h <;> rw [h]

/-- Claim C6 (amended): when the statute type has no entry in the
generator mapping, or the mapped name resolves to a falsy value (an
unbound global), processRow succeeds, appending the empty-cells fallback
row and printing the no-generator diagnostic, and the loop continues with
the next row.  (A mapped name bound to a TRUTHY NON-FUNCTION is called and
raises TypeError — see the counterexample.) -/
theorem unknown_type_fallback_core (config : Config)
    (gmap : String → Option String) (genv : String → Option GlobalVal)
    (st : GenState) (sc : Cell) (t pp ti d nc ps : String) (rest : List Row)
    (hmiss : resolve_generator gmap genv (pyStripStr t) = none
      ∨ resolve_generator gmap genv (pyStripStr t) = some (.nonfunc false)) :
    processRow config gmap genv st ⟨some sc, some (.str t), some (.str pp),
        some (.str ti), some (.str d), some (.str nc), some (.str ps)⟩
      = .ok ⟨(sessionStep st sc.pyStr).1
          ++ html_with_empty_cells
              (generate_pdf_link config (pyStripStr t) pp ps) (pyStripStr t)
              ti d pp nc,
          (sessionStep st sc.pyStr).2,
          st.diagnostics ++ [no_generator_msg (pyStripStr t)]⟩ ∧
    genLoop config gmap genv (⟨some sc, some (.str t), some (.str pp),
        some (.str ti), some (.str d), some (.str nc), some (.str ps)⟩ :: rest) st
      = genLoop config gmap genv rest
          ⟨(sessionStep st sc.pyStr).1
            ++ html_with_empty_cells
                (generate_pdf_link config (pyStripStr t) pp ps) (pyStripStr t)
                ti d pp nc,
            (sessionStep st sc.pyStr).2,
            st.diagnostics ++ [no_generator_msg (pyStripStr t)]⟩ := by
  have h1 := processRow_ok config gmap genv st sc t pp ti d nc ps _ _
    (dispatch_fallback gmap genv _ _ ti d pp nc hmiss)
  exact ⟨h1, genLoop_cons _ _ _ _ _ _ _ h1⟩

theorem takeWhile_all_append (p : Char → Bool) :
    ∀ (l post : List Char), (∀ c ∈ l, p c = true) →
      (∀ c ∈ post.take 1, p c = false) →
      (l ++ post).takeWhile p = l := by
  intro l
  induction l with
  | nil =>
    intro post h1 h2
    cases post with
    | nil => rfl
    | cons q qs =>
      simp only [List.nil_append, List.takeWhile_cons, h2 q (by simp),
        Bool.false_eq_true, if_false]
  | cons a l' ih =>
    intro post h1 h2
    simp only [List.cons_append, List.takeWhile_cons,
      h1 a (List.mem_cons_self a l'), if_true]
    rw [ih post (fun c hc => h1 c (List.mem_cons_of_mem a hc)) h2]

theorem firstDigitRun_split :
    ∀ (pre ds post : List Char), (∀ c ∈ pre, c.isDigit = false) → ds ≠ [] →
      (∀ c ∈ ds, c.isDigit = true) →
      (∀ c ∈ post.take 1, c.isDigit = false) →
      firstDigitRun (pre ++ (ds ++ post)) = some ds := by
  intro pre
  induction pre with
  | nil =>
    intro ds post hpre hne hdig hpost
    cases ds with
    | nil => exact absurd rfl hne
    | cons c cs =>
      simp only [List.nil_append, List.cons_append, firstDigitRun,
        hdig c (List.mem_cons_self c cs), if_true, List.append_eq]
      rw [takeWhile_all_append Char.isDigit cs post
        (fun x hx => hdig x (List.mem_cons_of_mem c hx)) hpost]
  | cons a pre' ih =>
    intro ds post hpre hne hdig hpost
    simp only [List.cons_append, firstDigitRun,
      hpre a (List.mem_cons_self a pre'), if_false]
    exact ih ds post (fun c hc => hpre c (List.mem_cons_of_mem a hc)) hne
      hdig hpost

/-- Claim C2 (amended): when numberChapter decomposes as non-digits, a
nonempty digit run denoting positive n, and a tail not starting with a
digit, the act/resolution/appendix formatter returns a row whose first
cell is the anchor-linked type cell, whose SECOND CELL CARRIES THE
publicPrivate VALUE VERBATIM (the claim said empty), whose third cell is
the title prefixed with the Roman numeral of n and ". ", and whose fourth
cell is the date. -/
theorem act_formatter_amended (pdf_link ty title date pp nc : String)
    (pre ds post : List Char) (n : Nat)
    (hnc : nc.data = pre ++ (ds ++ post))
    (hpre : ∀ c ∈ pre, c.isDigit = false) (hne : ds ≠ [])
    (hdig : ∀ c ∈ ds, c.isDigit = true)
    (hpost : ∀ c ∈ post.take 1, c.isDigit = false)
    (hn : pyIntOfDigits ds = n) (hpos : 0 < n) :
    html_for_act_resolution_appendix pdf_link ty title date pp nc
      = .ok ("\n                    <tr>\n                        <td><a target=\"_blank\" href=\""
        ++ pdf_link ++ "\">" ++ ty
        ++ "</a></td>\n                        <td>" ++ pp
        ++ "</td>\n                        <td>"
        ++ (arabic_to_roman n ++ ". " ++ title)
        ++ "</td>\n                        <td>" ++ date
        ++ "</td>\n                    </tr>") := by
  unfold html_for_act_resolution_appendix re_search_digits
  rw [hnc, firstDigitRun_split pre ds post hpre hne hdig hpost]
  have hn2 : pyIntOfDigits (String.mk ds).data = n := hn
  simp only [Option.map, hn2]


/-! ## Claim theorems: counterexamples, closed evaluations and witnesses -/

/-- Claim C2 counterexample: at publicPrivate = "Public" the source act
formatter puts "Public" in the second cell, so the output differs from the
empty-second-cell row the claim describes. -/
theorem act_formatter_second_cell_counterexample :
    html_for_act_resolution_appendix "L" "Act" "T" "D" "Public" "12"
      = .ok ("\n                    <tr>\n                        <td><a target=\"_blank\" href=\"L\">Act</a></td>\n                        <td>Public</td>\n                        <td>XII. T</td>\n                        <td>D</td>\n                    </tr>") ∧
    html_for_act_resolution_appendix "L" "Act" "T" "D" "Public" "12"
      ≠ .ok (act_row_per_claim "L" "Act" "T" "D" 12) := by
  constructor
  · decide
  · decide

/-- Witness for claim C2 (amended) at numberChapter = "No. 12a". -/
theorem act_formatter_amended_witness :
    ("No. 12a" : String).data = ['N', 'o', '.', ' '] ++ (['1', '2'] ++ ['a']) ∧
    pyIntOfDigits ['1', '2'] = 12 ∧ 0 < 12 ∧
    html_for_act_resolution_appendix "L" "Act" "T" "D" "Public" "No. 12a"
      = .ok ("\n                    <tr>\n                        <td><a target=\"_blank\" href=\""
        ++ "L" ++ "\">" ++ "Act"
        ++ "</a></td>\n                        <td>" ++ "Public"
        ++ "</td>\n                        <td>"
        ++ (arabic_to_roman 12 ++ ". " ++ "T")
        ++ "</td>\n                        <td>" ++ "D"
        ++ "</td>\n                    </tr>") :=
  ⟨by decide, by decide, by decide,
    act_formatter_amended "L" "Act" "T" "D" "Public" "No. 12a"
      ['N', 'o', '.', ' '] ['1', '2'] ['a'] 12 (by decide) (by decide)
      (by decide) (by decide) (by decide) (by decide) (by decide)⟩

/-- Claim C3 counterexample: after a session-"A" row, a row whose session
is the empty string closes the A table (its own output lands after the
close, outside any table, and no final close is emitted since
previousSession became empty) — not the absorbed-into-the-open-table
output the claim predicts. -/
theorem blank_session_counterexample :
    generate_html [strRow "A" "T" "" "t1" "d1" "n1" "p1",
        strRow "" "T" "" "t2" "d2" "n2" "p2"] cfg0 gmap_none module_globals
      = .ok (gen_header cfg0 ++ open_table_frag "A"
          ++ html_with_empty_cells "PU#page=p1" "T" "t1" "d1" "" "n1"
          ++ close_table_frag
          ++ html_with_empty_cells "PU#page=p2" "T" "t2" "d2" "" "n2",
          [no_generator_msg "T", no_generator_msg "T"]) ∧
    generate_html [strRow "A" "T" "" "t1" "d1" "n1" "p1",
        strRow "" "T" "" "t2" "d2" "n2" "p2"] cfg0 gmap_none module_globals
      ≠ .ok (gen_header cfg0 ++ open_table_frag "A"
          ++ html_with_empty_cells "PU#page=p1" "T" "t1" "d1" "" "n1"
          ++ html_with_empty_cells "PU#page=p2" "T" "t2" "d2" "" "n2"
          ++ "</tbody></table>",
          [no_generator_msg "T", no_generator_msg "T"]) := by
  constructor
  · decide
  · decide

/-- Witness for claim C3 (amended) with previous session "A". -/
theorem blank_session_behavior_witness :
    ("A" : String) ≠ "" ∧ ("A" : String) ≠ "nan" ∧
    dispatch gmap_none module_globals
        (generate_pdf_link cfg0 (pyStripStr "T") "" "p") (pyStripStr "T")
        "t" "d" "" "n"
      = .ok (html_with_empty_cells
          (generate_pdf_link cfg0 (pyStripStr "T") "" "p") (pyStripStr "T")
          "t" "d" "" "n",
          [no_generator_msg (pyStripStr "T")]) ∧
    (processRow cfg0 gmap_none module_globals ⟨"H", "A", []⟩
        (strRow "" "T" "" "t" "d" "n" "p")
      = .ok ⟨"H" ++ close_table_frag
          ++ html_with_empty_cells
              (generate_pdf_link cfg0 (pyStripStr "T") "" "p") (pyStripStr "T")
              "t" "d" "" "n", "",
          [] ++ [no_generator_msg (pyStripStr "T")]⟩ ∧
    processRow cfg0 gmap_none module_globals ⟨"H", "A", []⟩
        ⟨some Cell.nan, some (.str "T"), some (.str ""), some (.str "t"),
         some (.str "d"), some (.str "n"), some (.str "p")⟩
      = .ok ⟨"H" ++ close_table_frag ++ open_table_frag "nan"
          ++ html_with_empty_cells
              (generate_pdf_link cfg0 (pyStripStr "T") "" "p") (pyStripStr "T")
              "t" "d" "" "n", "nan",
          [] ++ [no_generator_msg (pyStripStr "T")]⟩) :=
  ⟨by decide, by decide, by decide,
    blank_session_behavior cfg0 gmap_none module_globals "H" "A" []
      "T" "" "t" "d" "n" "p" _ _ (by decide) (by decide) (by decide)⟩

/-- Claim C4: the code, evaluated at rows the claim says must be skipped
with a diagnostic, instead raises: a row missing the Title column raises
KeyError (the except clause catches only ValueError, which str() never
raises), and an act/resolution/appendix row whose Number/Chapter holds no
digit raises AttributeError from the formatter; either exception aborts
the whole generation. -/
theorem generate_html_keyerror :
    generate_html [⟨some (.str "A"), some (.str "T"), some (.str "P"),
        none, some (.str "d"), some (.str "n"), some (.str "p")⟩]
      cfg0 gmap_none module_globals = .error (.keyError "Title") ∧
    generate_html [strRow "S" "Act" "P" "ti" "da" "chapter one" "7"]
      cfg0 gmap_act module_globals = .error .attributeError := by
  constructor
  · decide
  · decide

/-- Claim C5 counterexample: with sessions A,A,B,B,B but the first row
dispatched to the act/resolution/appendix formatter with a digit-free
Number/Chapter, generate_html raises instead of emitting two tables, so
the grouping property does not hold for arbitrary other field values. -/
theorem session_grouping_counterexample :
    generate_html
        [strRow "A" "Act" "" "t" "d" "foo" "p",
         strRow "A" "T" "" "t" "d" "n" "p",
         strRow "B" "T" "" "t" "d" "n" "p",
         strRow "B" "T" "" "t" "d" "n" "p",
         strRow "B" "T" "" "t" "d" "n" "p"] cfg0 gmap_act module_globals
      = .error .attributeError := by decide

/-- Witness for claim C5 (amended) at concrete field values. -/
theorem session_grouping_witness :
    ("A" : String) ≠ "" ∧ ("B" : String) ≠ "" ∧ ("B" : String) ≠ "A" ∧
    generate_html
        [strRow "A" "T" "" "t" "d" "n" "p",
         strRow "A" "T" "" "t" "d" "n" "p",
         strRow "B" "T" "" "t" "d" "n" "p",
         strRow "B" "T" "" "t" "d" "n" "p",
         strRow "B" "T" "" "t" "d" "n" "p"] cfg0 gmap_none module_globals
      = .ok (gen_header cfg0 ++ open_table_frag "A"
          ++ html_with_empty_cells
              (generate_pdf_link cfg0 (pyStripStr "T") "" "p") (pyStripStr "T")
              "t" "d" "" "n"
          ++ html_with_empty_cells
              (generate_pdf_link cfg0 (pyStripStr "T") "" "p") (pyStripStr "T")
              "t" "d" "" "n"
          ++ close_table_frag ++ open_table_frag "B"
          ++ html_with_empty_cells
              (generate_pdf_link cfg0 (pyStripStr "T") "" "p") (pyStripStr "T")
              "t" "d" "" "n"
          ++ html_with_empty_cells
              (generate_pdf_link cfg0 (pyStripStr "T") "" "p") (pyStripStr "T")
              "t" "d" "" "n"
          ++ html_with_empty_cells
              (generate_pdf_link cfg0 (pyStripStr "T") "" "p") (pyStripStr "T")
              "t" "d" "" "n"
          ++ "</tbody></table>",
          [no_generator_msg (pyStripStr "T")]
            ++ [no_generator_msg (pyStripStr "T")]
            ++ [no_generator_msg (pyStripStr "T")]
            ++ [no_generator_msg (pyStripStr "T")]
            ++ [no_generator_msg (pyStripStr "T")]) :=
  ⟨by decide, by decide, by decide,
    session_grouping cfg0 gmap_none module_globals "A" "B"
      (fun _ => "T") (fun _ => "") (fun _ => "t") (fun _ => "d")
      (fun _ => "n") (fun _ => "p")
      (fun _ => html_with_empty_cells
        (generate_pdf_link cfg0 (pyStripStr "T") "" "p") (pyStripStr "T")
        "t" "d" "" "n")
      (fun _ => [no_generator_msg (pyStripStr "T")])
      (by decide) (by decide) (by decide) (by decide)⟩

/-- Claim C6 counterexample: a statute type whose mapped generator name is
bound to a truthy non-function (user_config, the loaded configuration
dictionary) is called anyway, so generate_html raises TypeError instead of
falling back to the empty-cells formatter. -/
theorem nonfunction_generator_counterexample :
    generate_html [strRow "A" "Weird" "" "t" "d" "n" "p"] cfg0
      gmap_user_config module_globals = .error .typeError := by decide

/-- Witness for claim C6 (amended) at a type with no mapping entry. -/
theorem unknown_type_fallback_witness :
    (resolve_generator gmap_none module_globals (pyStripStr "T") = none ∨
      resolve_generator gmap_none module_globals (pyStripStr "T")
        = some (.nonfunc false)) ∧
    (processRow cfg0 gmap_none module_globals ⟨"H", "A", []⟩
        ⟨some (Cell.str "A"), some (.str "T"), some (.str ""),
         some (.str "t"), some (.str "d"), some (.str "n"), some (.str "p")⟩
      = .ok ⟨(sessionStep ⟨"H", "A", []⟩ (Cell.str "A").pyStr).1
          ++ html_with_empty_cells
              (generate_pdf_link cfg0 (pyStripStr "T") "" "p") (pyStripStr "T")
              "t" "d" "" "n",
          (sessionStep ⟨"H", "A", []⟩ (Cell.str "A").pyStr).2,
          [] ++ [no_generator_msg (pyStripStr "T")]⟩ ∧
    genLoop cfg0 gmap_none module_globals
        (⟨some (Cell.str "A"), some (.str "T"), some (.str ""),
          some (.str "t"), some (.str "d"), some (.str "n"),
          some (.str "p")⟩ :: []) ⟨"H", "A", []⟩
      = genLoop cfg0 gmap_none module_globals []
          ⟨(sessionStep ⟨"H", "A", []⟩ (Cell.str "A").pyStr).1
            ++ html_with_empty_cells
                (generate_pdf_link cfg0 (pyStripStr "T") "" "p")
                (pyStripStr "T") "t" "d" "" "n",
            (sessionStep ⟨"H", "A", []⟩ (Cell.str "A").pyStr).2,
            [] ++ [no_generator_msg (pyStripStr "T")]⟩) :=
  ⟨Or.inl rfl,
    unknown_type_fallback_core cfg0 gmap_none module_globals ⟨"H", "A", []⟩
      (Cell.str "A") "T" "" "t" "d" "n" "p" [] (Or.inl rfl)⟩

/-- Witness for claim C7 at k = 1 on a two-row DataFrame. -/
theorem audit_checkpoint_roundtrip_witness :
    1 < sample_audit_df.length ∧
    (audit_process (List.replicate 1 "y" ++ ["exit"]) sample_audit_df 0
        = .paused sample_audit_df (toString 1) (List.range 2) ∧
      audit_process (List.replicate 1 "y" ++ ["n", "exit"]) sample_audit_df 0
        = .paused sample_audit_df (toString 1) (List.range 2) ∧
      get_last_audited_row (some (toString 1)) = .ok (1 : Int) ∧
      (audit_process ["y"] sample_audit_df ((1 : Nat) : Int)).asked.head?
        = some 1 ∧
      ∀ i ∈ (audit_process ["y"] sample_audit_df ((1 : Nat) : Int)).asked,
        1 ≤ i) :=
  ⟨by decide, audit_checkpoint_roundtrip sample_audit_df 1 ["y"] (by decide)⟩

/-- Witness for claim C8 at row 0 with correction "42". -/
theorem audit_correction_frame_witness :
    0 < sample_audit_df.length ∧ pyInt "42" = .ok 42 ∧
    pyLower "42" ≠ "exit" ∧
    (audit_process
        (List.replicate 0 "y" ++ "n" :: "42" ::
          List.replicate (sample_audit_df.length - 0 - 1) "y")
        sample_audit_df 0
      = .complete (setPdfStart sample_audit_df 0 42)
          (List.range sample_audit_df.length) ∧
      (setPdfStart sample_audit_df 0 42).length = sample_audit_df.length ∧
      (∀ j, j ≠ 0 →
        (setPdfStart sample_audit_df 0 42)[j]? = sample_audit_df[j]?) ∧
      (setPdfStart sample_audit_df 0 42)[0]?
        = sample_audit_df[0]?.map fun r => { r with pdfStart := .intV 42 }) :=
  ⟨by decide, by decide, by decide,
    audit_correction_frame sample_audit_df 0 "42" 42 (by decide) (by decide)
      (by decide)⟩

/-- Claim C9 counterexample: on a run with no audited file, an existing
HTML output file and a completing audit, main writes the HTML output
anyway and does not abort — the refusal the claim describes does not
happen on this path. -/
theorem html_overwrite_counterexample :
    MainAction.writeHtml ∈ main_flow false true true ∧
    MainAction.exitProgram ∉ main_flow false true true := by decide

/-- Claim C9 (amended): the overwrite refusal happens only when the
audited file already exists: then an existing HTML output makes main print
the refusal and exit without writing.  When the audited file does not
exist, a completed fresh audit writes the HTML output unconditionally,
even over an existing file, and an aborted audit writes nothing. -/
theorem html_overwrite_policy :
    (∀ c : Bool, main_flow true true c
        = [.printMsg "Audited file already exists.",
           .printMsg "HTML output already exists. If you wish to regenerate, please delete or backup the existing file.",
           .exitProgram] ∧
      MainAction.writeHtml ∉ main_flow true true c) ∧
    (∀ hE : Bool, MainAction.writeHtml ∈ main_flow false hE true) ∧
    (∀ hE : Bool, MainAction.writeHtml ∉ main_flow false hE false) ∧
    (∀ c : Bool, MainAction.writeHtml ∈ main_flow true false c) := by decide

/-- Claim C10: a missing checkpoint file, and a checkpoint file whose
content is empty or whitespace-only, both make get_last_audited_row return
0 without raising, and an audit run started with checkpoint 0 prompts for
row 0 first. -/
theorem get_last_audited_row_fresh (s : String) (df : List AuditRow)
    (ins : List String) (hs : ∀ c ∈ s.data, pyIsSpace c = true)
    (hdf : df ≠ []) :
    get_last_audited_row none = .ok 0 ∧
    get_last_audited_row (some s) = .ok 0 ∧
    (audit_process ins df 0).asked.head? = some 0 := by
  have hstrip : pyStrip s.data = [] := by
    unfold pyStrip
    rw [List.dropWhile_eq_nil_iff.mpr (fun c hc => hs c hc)]
    simp
  refine ⟨rfl, ?_, ?_⟩
  · simp only [get_last_audited_row, hstrip]
    rfl
  · cases df with
    | nil => exact absurd rfl hdf
    | cons r rest =>
      unfold audit_process
      rw [List.enum_eq_enumFrom]
      simp only [List.enumFrom]
      obtain ⟨t, ht1, ht2⟩ :=
        auditGo_cons_asked 0 0 r (List.enumFrom 1 rest) ins (r :: rest) []
          (by omega)
      rw [ht1]
      simp

/-- Witness for claim C10 with a whitespace-only checkpoint. -/
theorem get_last_audited_row_fresh_witness :
    (∀ c ∈ (" \n " : String).data, pyIsSpace c = true) ∧
    sample_audit_df ≠ [] ∧
    (get_last_audited_row none = .ok 0 ∧
      get_last_audited_row (some " \n ") = .ok 0 ∧
      (audit_process [] sample_audit_df 0).asked.head? = some 0) :=
  ⟨by decide, by decide,
    get_last_audited_row_fresh " \n " sample_audit_df [] (by decide)
      (by decide)⟩

end LocSal
